import Mathlib

/-!
# Verification of the GitLab-to-GitHub migration script

A shallow embedding, in Lean 4, of the migration reconciliation and
transformation engine of the `node-gitlab-2-github` script (single source
file).  Pure fragments of the JavaScript are translated into Lean
functions; the remote API calls are modelled by explicit environment
parameters (a function from project id to fetched items, the reported
parent commits of a commit, the eventual outcome of a create call); and
JavaScript runtime failures (accessing a property of `undefined`,
referencing an unbound variable) are modelled with `Except`.

Field access on possibly-absent JavaScript object fields is modelled with
`Option`; JavaScript truthiness tests on strings and objects are modelled
explicitly where the source relies on them.
-/

set_option autoImplicit false

namespace G2G

/-! ## Data model -/

/-- A GitLab user reference whose `username` field may itself be absent
(`addMigrationLine` tests `item.author == null || item.author.username == null`). -/
structure MaybeUser where
  username : Option String
deriving DecidableEq, Repr

/-- A GitLab assignee reference; `createIssue` reads `issue.assignee.username`
directly, so the username is a plain string here. -/
structure AssigneeRef where
  username : String
deriving DecidableEq, Repr

/-- A GitLab issue as consumed by `transferIssues` / `createIssue`.  Fields
that the synthetic placeholder item lacks (`iid`, `id`, `labels`, `assignee`,
`milestone`, `author`, `created_at`) are `Option`s: an absent field is the
JavaScript value `undefined`. -/
structure Issue where
  iid : Option Nat
  id : Option Nat
  title : String
  description : String
  state : String
  assignee : Option AssigneeRef
  /-- the `title` field of `issue.milestone`, when the issue has a milestone -/
  milestoneTitle : Option String
  labels : Option (List String)
  author : Option MaybeUser
  created_at : Option String
deriving DecidableEq, Repr

/-- A GitLab note (issue comment) as consumed by `createIssueComments`. -/
structure Note where
  id : Nat
  body : String
  author : Option MaybeUser
  created_at : Option String
deriving DecidableEq, Repr

/-- A GitLab merge request as consumed by `transferMergeRequests` /
`createPRAndComments`. -/
structure MergeRequest where
  id : Nat
  iid : Nat
  title : String
  description : String
  state : String
  source_branch : String
  target_branch : String
  sha : String
  merge_commit_sha : String
deriving DecidableEq, Repr

/-- A GitLab milestone as consumed by `transferMilestones`. -/
structure Milestone where
  id : Nat
  title : String
  description : String
  state : String
  due_date : Option String
deriving DecidableEq, Repr

/-- A GitHub milestone summary as returned by `getAllGHMilestones`
(`{number, title}`). -/
structure GhMilestone where
  number : Nat
  title : String
deriving DecidableEq, Repr

/-- A GitHub issue as returned by `getAllGHIssues`, restricted to the fields
the script reads (`title`, `state`, `number`). -/
structure GhIssueRef where
  number : Nat
  title : String
  state : String
deriving DecidableEq, Repr

/-- A GitHub pull request summary as built by `getAllGHPullRequests`
(`{number, title}`). -/
structure GhPullReq where
  number : Nat
  title : String
deriving DecidableEq, Repr

/-- The part of the `settings.js` configuration the embedded functions read. -/
structure Settings where
  github_owner : String
  github_repo : String
  github_username : String
  /-- `settings.usermap`: `none` models a `null`/absent map. -/
  usermap : Option (List (String × String))
  /-- `settings.projectmap`: `none` models a `null`/absent map. -/
  projectmap : Option (List (String × String))
deriving DecidableEq, Repr

/-- Lookup in a (possibly absent) JavaScript object used as a map:
`settings.usermap[k]` is `undefined` when the map is absent or the key is
missing. -/
def mapLookup (m : Option (List (String × String))) (k : String) : Option String :=
  match m with
  | none => none
  | some l => (l.find? (fun p => p.1 = k)).map Prod.snd

/-- JavaScript truthiness of a possibly-undefined string: `undefined` and the
empty string are falsy. -/
def jsTruthyStr (o : Option String) : Bool :=
  match o with
  | none => false
  | some s => s ≠ ""

/-- The emptiness test `settings.usermap == null || Object.keys(settings.usermap).length == 0`. -/
def mapEmpty (m : Option (List (String × String))) : Bool :=
  match m with
  | none => true
  | some l => l.isEmpty

/-! ## List helpers: substring tests and a stable ascending sort

The script sorts with `xs.sort((a, b) => a.id - b.id)`, a stable ascending
sort by `id`; we model it with a stable insertion sort so that the kernel
can evaluate it.  Regular-expression `.test` calls are unanchored substring
searches; all patterns in the script are literal strings optionally joined
by `.*` (which matches any run of non-newline characters), so a test is
modelled by scanning for a position where the first literal is a prefix and
the second literal occurs before the next newline. -/

/-- JavaScript `String.prototype.trim()`: drop whitespace from both ends.
Modelled directly on the character list so that the kernel can evaluate
it. -/
def jsTrim (s : String) : String :=
  ⟨((s.data.dropWhile Char.isWhitespace).reverse.dropWhile Char.isWhitespace).reverse⟩

/-- Is `pat` a contiguous infix of `s`? -/
def listHasInfix (pat : List Char) : List Char → Bool
  | [] => pat.isEmpty
  | c :: rest => pat.isPrefixOf (c :: rest) || listHasInfix pat rest

/-- `s.indexOf(pat) > -1` on strings. -/
def strContains (s pat : String) : Bool :=
  listHasInfix pat.data s.data

/-- Does the regular expression `pre.*post` (literals `pre` and `post`, `.`
not matching newline) match starting at this position? -/
def reMatchHere (pre post s : List Char) : Bool :=
  pre.isPrefixOf s && listHasInfix post ((s.drop pre.length).takeWhile (fun c => c ≠ '\n'))

/-- Scan all start positions for a `pre.*post` match. -/
def reTestAux (pre post : List Char) : List Char → Bool
  | [] => reMatchHere pre post []
  | c :: rest => reMatchHere pre post (c :: rest) || reTestAux pre post rest

/-- `/pre.*post/.test(s)` for literal fragments `pre` and `post`; with
`post = ""` this is `/pre.*/.test(s)`, i.e. plain substring search. -/
def reTest (pre post s : String) : Bool :=
  reTestAux pre.data post.data s.data

/-- Insert `n` into a list already sorted ascending by `key`, before any
element of equal key (stability). -/
def insertByKey {α : Type} (key : α → Nat) (n : α) : List α → List α
  | [] => [n]
  | m :: rest => if key m < key n then m :: insertByKey key n rest else n :: m :: rest

/-- Stable ascending sort by `key`, modelling `xs.sort((a, b) => key(a) - key(b))`. -/
def sortByKey {α : Type} (key : α → Nat) : List α → List α
  | [] => []
  | n :: rest => insertByKey key n (sortByKey key rest)

theorem mem_insertByKey {α : Type} (key : α → Nat) (n x : α) (l : List α) :
    x ∈ insertByKey key n l ↔ x = n ∨ x ∈ l := by
  induction l with
  | nil => simp [insertByKey]
  | cons m rest ih =>
    by_cases h : key m < key n
    · simp only [insertByKey, if_pos h, List.mem_cons, ih]
      tauto
    · simp only [insertByKey, if_neg h, List.mem_cons]

theorem mem_sortByKey {α : Type} (key : α → Nat) (x : α) (l : List α) :
    x ∈ sortByKey key l ↔ x ∈ l := by
  induction l with
  | nil => simp [sortByKey]
  | cons n rest ih =>
    simp only [sortByKey, mem_insertByKey, List.mem_cons, ih]

/-! ## Text transformer (`addMigrationLine`, `generateUserProjectRe`,
`convertIssuesAndComments`) -/

/-- `addMigrationLine(str, item)`.  The date formatter
`new Date(...).toLocaleString('en-US', dateformatOptions)` is environment
dependent (locale database), so it is passed in as `localeDate`.  When the
item lacks an author username or creation date the body is returned
unchanged. -/
def addMigrationLine (localeDate : String → String) (str : String)
    (author : Option MaybeUser) (created_at : Option String) : String :=
  match author, created_at with
  | some a, some d =>
    match a.username with
    | some u => "In GitLab by @" ++ u ++ " on " ++ localeDate d ++ "\n\n" ++ str
    | none => str
  | _, _ => str

/-- The alternatives of the regular expression built by
`generateUserProjectRe`, in order: `@key` for each usermap key, then `key#`
for each projectmap key; paired with the replacement the callback in
`convertIssuesAndComments` computes for that alternative
(`'@' + settings.usermap[name]` resp. `settings.projectmap[proj] + '#'`;
JavaScript renders a missing value as the string `undefined`). -/
def userProjectAlts (s : Settings) : List (String × String) :=
  (match s.usermap with
   | none => []
   | some m => m.map (fun p => ("@" ++ p.1, "@" ++ ((mapLookup s.usermap p.1).getD "undefined")))) ++
  (match s.projectmap with
   | none => []
   | some m => m.map (fun p => (p.1 ++ "#", ((mapLookup s.projectmap p.1).getD "undefined") ++ "#")))

/-- Try the alternatives in order at the present position; on a match return
the replacement and the remaining input. -/
def matchAlt (alts : List (String × String)) (s : List Char) : Option (String × List Char) :=
  alts.findSome? (fun pr =>
    if pr.1.data ≠ [] ∧ pr.1.data.isPrefixOf s then some (pr.2, s.drop pr.1.length) else none)

/-- One global-replace scan, `String.prototype.replace` with a `g` regex:
at each position try the alternatives in order; on a match emit the
replacement and resume after the matched text, else copy one character.
`fuel` bounds the recursion; every step consumes at least one character, so
`fuel = s.length` suffices. -/
def replaceAllAux (alts : List (String × String)) : Nat → List Char → List Char
  | 0, s => s
  | _ + 1, [] => []
  | fuel + 1, c :: rest =>
    match matchAlt alts (c :: rest) with
    | some (rep, rest1) => rep.data ++ replaceAllAux alts fuel rest1
    | none => c :: replaceAllAux alts fuel rest

/-- `str.replace(userProjectRe, callback)` as a whole: the fresh string the
replace call produces. -/
def jsReplaceGlobal (alts : List (String × String)) (s : String) : String :=
  ⟨replaceAllAux alts s.data.length s.data⟩

/-- `convertIssuesAndComments(str, item)`.  When both maps are empty it
returns the attributed body.  Otherwise the source computes
`strWithMigLine.replace(userProjectRe, ...)` — JavaScript strings are
immutable, the replace call produces a fresh string, and that result is not
assigned to anything — and then returns `strWithMigLine`. -/
def convertIssuesAndComments (s : Settings) (localeDate : String → String)
    (str : String) (author : Option MaybeUser) (created_at : Option String) : String :=
  if mapEmpty s.usermap && mapEmpty s.projectmap then
    addMigrationLine localeDate str author created_at
  else
    let strWithMigLine := addMigrationLine localeDate str author created_at
    let _discardedRewrite := jsReplaceGlobal (userProjectAlts s) strWithMigLine
    strWithMigLine

/-! ## Gap-filling pass of `transferIssues` -/

/-- The synthetic placeholder issue object of `transferIssues`: it carries
only `title`, `description` and `state`; every other field is absent. -/
def placeholderItem : Issue :=
  { iid := none
    id := none
    title := "placeholder issue for issue which does not exist and was probably deleted in GitLab"
    description := "This is to ensure the issue numbers in GitLab and GitHub are the same"
    state := "closed"
    assignee := none
    milestoneTitle := none
    labels := none
    author := none
    created_at := none }

/-- The placeholder-insertion loop of `transferIssues`:

```
for (let i=0; i<issues.length; i++) \x7b
  let expectedIdx = i+1;
  if (issues[i].iid != expectedIdx) \x7b
    issues.splice(i, 0, placeholderItem);
    i++;
  \x7d
\x7d
```

Recursion over the unprocessed suffix, carrying `expectedIdx = i + 1` for
the element at the head.  On a mismatch the splice puts the placeholder at
index `i` and shifts the current element to `i + 1`; the body increments
`i` and the loop increments it again, so the next element examined is at
index `i + 2` and its expected index is `expectedIdx + 2` — the shifted
element itself is never re-examined.  On a match the loop advances by one.
An absent `iid` (the placeholder) compares unequal to every number, as
`undefined != n` does. -/
def fillPlaceholders : Nat → List Issue → List Issue
  | _, [] => []
  | expectedIdx, x :: rest =>
    if x.iid ≠ some expectedIdx then
      placeholderItem :: x :: fillPlaceholders (expectedIdx + 2) rest
    else
      x :: fillPlaceholders (expectedIdx + 1) rest

/-- The whole pass starts at index 0, i.e. expected iid 1. -/
def transferIssues_gapFill (issues : List Issue) : List Issue :=
  fillPlaceholders 1 issues

/-! ## Existence reconciler: the already-migrated tests -/

/-- `transferMilestones`: `ghMilestones.find(m => m.title === milestone.title)`,
used for its truthiness. -/
def milestoneAlreadyMigrated (ghMilestones : List GhMilestone) (milestone : Milestone) : Bool :=
  (ghMilestones.find? (fun m => m.title = milestone.title)).isSome

/-- `transferIssues`: `ghIssues.find(i => i.title.trim() === issue.title.trim())`;
the found GitHub issue is also used for the state fixup, hence `Option`. -/
def issueAlreadyMigrated (ghIssues : List GhIssueRef) (issue : Issue) : Option GhIssueRef :=
  ghIssues.find? (fun i => jsTrim i.title = jsTrim issue.title)

/-- `transferMergeRequests`: `ghPullRequests.find(pr => pr.title === mr.title)`. -/
def prAlreadyMigrated (ghPullRequests : List GhPullReq) (mr : MergeRequest) : Option GhPullReq :=
  ghPullRequests.find? (fun pr => pr.title = mr.title)

/-! ## `createIssue` -/

/-- The GitHub issue-creation payload `props` assembled by `createIssue`.
`assignees`, `milestone` and `labels` are only set on some paths. -/
structure GhIssueProps where
  owner : String
  repo : String
  title : String
  body : String
  assignees : Option (List String)
  milestone : Option Nat
  labels : Option (List String)
deriving DecidableEq, Repr

/-- The assignee step of `createIssue`.  When the issue has an assignee the
source sets `props.assignees = []` and then either pushes the migration
username, or — in the usermap branch — evaluates
`settings.usermap[item.assignee.username]`, where `item` is not bound
anywhere in the function (its parameter is `issue`), which throws a
`ReferenceError`.  The branch guard `settings.usermap && settings.usermap[...]`
itself reads `issue`, so the guard evaluates and the throw happens only when
the guard is satisfied. -/
def createIssue_assignees (s : Settings) (issue : Issue) :
    Except String (Option (List String)) :=
  match issue.assignee with
  | none => Except.ok none
  | some a =>
    if a.username = s.github_username then
      Except.ok (some [s.github_username])
    else if s.usermap.isSome && jsTruthyStr (mapLookup s.usermap a.username) then
      Except.error "ReferenceError: item is not defined"
    else
      Except.ok (some [])

/-- `createIssue(owner, repo, milestones, issue)`, up to the final
`github.issues.create(props)` call: the payload it would send, or the
JavaScript runtime error it throws while assembling it.  Steps in source
order: converted body, trimmed title, assignee mapping, milestone lookup by
title, verbatim label carry-over, and the attachment flag
`if (props.body && props.body.indexOf("/uploads/") > -1) props.labels.push(...)`,
which throws a `TypeError` when `props.labels` was never set. -/
def createIssue (s : Settings) (localeDate : String → String)
    (milestones : List GhMilestone) (issue : Issue) : Except String GhIssueProps :=
  let bodyConverted :=
    convertIssuesAndComments s localeDate issue.description issue.author issue.created_at
  match createIssue_assignees s issue with
  | Except.error e => Except.error e
  | Except.ok assignees =>
    let milestone : Option Nat :=
      match issue.milestoneTitle with
      | none => none
      | some t => (milestones.find? (fun m => m.title = t)).map GhMilestone.number
    let labelStep : Except String (Option (List String)) :=
      if jsTruthyStr (some bodyConverted) && strContains bodyConverted "/uploads/" then
        match issue.labels with
        | none => Except.error "TypeError: cannot read property push of undefined"
        | some ls => Except.ok (some (ls ++ ["has attachment"]))
      else
        Except.ok issue.labels
    match labelStep with
    | Except.error e => Except.error e
    | Except.ok labels =>
      Except.ok
        { owner := s.github_owner
          repo := s.github_repo
          title := jsTrim issue.title
          body := bodyConverted
          assignees := assignees
          milestone := milestone
          labels := labels }

/-! ## `createIssueComments`: the note filter -/

/-- The disjunction of regular-expression tests that makes
`createIssueComments` drop a note as a state-change narration:

```
(/Status changed to .*/.test(b) && !/Status changed to closed by commit.*/.test(b)) ||
/changed milestone to .*/.test(b) || /Milestone changed to .*/.test(b) ||
/Reassigned to /.test(b) || /added .* labels/.test(b) ||
/Added ~.* label/.test(b) || /mentioned in issue.*/.test(b)
```
-/
def noteIsStateChange (b : String) : Bool :=
  (reTest "Status changed to " "" b && !(reTest "Status changed to closed by commit" "" b)) ||
  reTest "changed milestone to " "" b ||
  reTest "Milestone changed to " "" b ||
  reTest "Reassigned to " "" b ||
  reTest "added " " labels" b ||
  reTest "Added ~" " label" b ||
  reTest "mentioned in issue" "" b

/-- The notes `createIssueComments` transfers as destination comments, in
order: sort ascending by id, then keep exactly the notes the narration
filter does not drop.  (The early return on an empty note list transfers
nothing, which the empty sort-and-filter also yields.) -/
def createIssueComments_transferred (notes : List Note) : List Note :=
  (sortByKey Note.id notes).filter (fun n => !(noteIsStateChange n.body))

/-! ## `updateIssueState` -/

/-- The payload of `github.issues.edit(props)`. -/
structure GhEditProps where
  owner : String
  repo : String
  number : Nat
  state : String
deriving DecidableEq, Repr

/-- `updateIssueState(ghIssue, issue)`: `none` models the early return
`if (issue.state != "closed" || ghIssue.state == "closed") return;`, `some`
the edit call it otherwise makes. -/
def updateIssueState (s : Settings) (ghIssue : GhIssueRef) (issue : Issue) :
    Option GhEditProps :=
  if issue.state ≠ "closed" ∨ ghIssue.state = "closed" then
    none
  else
    some { owner := s.github_owner
           repo := s.github_repo
           number := ghIssue.number
           state := issue.state }

/-! ## Merge requests: `transferMergeRequests` and `createPRAndComments` -/

/-- The fetch-and-sort prefix of `transferMergeRequests(owner, repo, projectId)`.
The GitLab listing call is modelled by the environment `fetchMRs`, mapping a
project id to that project's merge requests.  The source invokes
`gitlab.MergeRequests.all(\x7bprojectId: 188\x7d)` with the literal `188`;
its own `projectId` parameter is not used in the call.  The result is then
sorted ascending by `id`. -/
def transferMergeRequests_fetchSorted (fetchMRs : Nat → List MergeRequest)
    (projectId : Nat) : List MergeRequest :=
  let _ := projectId
  sortByKey MergeRequest.id (fetchMRs 188)

/-- A GitHub write operation issued by `createPRAndComments`, in order. -/
inductive GhAction where
  | createBranch (name : String) (sha : Option String)
  | createPullRequest (title : String) (body : String) (head : String) (base : String)
deriving DecidableEq, Repr

/-- `createPRAndComments(owner, repo, mr)`, modelled as the sequence of
GitHub writes it issues, given the `parent_ids` that `gitlab.Commits.show`
reports for `mr.merge_commit_sha`.  The source begins with

```
// TEMP
if (mr.iid != 1) return;
```

and then skips states other than merged and open; otherwise it creates the
head branch at `mr.sha`, resolves the merge-commit parent that differs from
the head sha (null unless exactly one such parent exists), creates the base
branch there, and creates the pull request.  Branch-creation failures are
caught inside `createGHBranch`, so the later writes are attempted
regardless. -/
def createPRAndComments (mr : MergeRequest) (parent_ids : List String) : List GhAction :=
  if mr.iid ≠ 1 then
    []
  else if mr.state ≠ "merged" ∧ mr.state ≠ "open" then
    []
  else
    let baseRef := "MR" ++ toString mr.iid ++ "-" ++ mr.target_branch ++ "-base"
    let headRef := "MR" ++ toString mr.iid ++ "-" ++ mr.source_branch ++ "-head"
    let parentCommits := parent_ids.filter (fun sha => sha ≠ mr.sha)
    let parentCommit := if parentCommits.length = 1 then parentCommits[0]? else none
    [GhAction.createBranch headRef (some mr.sha),
     GhAction.createBranch baseRef parentCommit,
     GhAction.createPullRequest mr.title mr.description headRef baseRef]

/-! ## Per-item error handling in `transferMilestones` and `transferLabels`

The loop body guarding one destination write is

```
try \x7b
  await (() => \x7b
    createMilestone(settings.github.owner, settings.github.repo, milestone);
  \x7d)(milestone);
\x7d catch (err) \x7b
  console.error("Could not create milestone", milestone.title);
  console.error(err);
\x7d
```

(and the label loop likewise, with `createLabel(...).catch(x=>\x7b\x7d)` inside
the arrow function).  A promise is modelled by its eventual outcome; the
arrow function is modelled by the value it returns, `none` standing for
`undefined` since neither arrow body has a return statement. -/

/-- The eventual outcome of a destination write. -/
def JsPromise : Type := Except String Unit

/-- `() => \x7b createMilestone(...); \x7d` applied: the create call starts
(its promise is the argument) and the arrow function returns `undefined`. -/
def milestoneClosureResult (p : JsPromise) : Option JsPromise :=
  let _ := p
  none

/-- `() => \x7b createLabel(...).catch(x=>\x7b\x7d); \x7d` applied: the create
call starts with a rejection handler attached, and the arrow function
returns `undefined`. -/
def labelClosureResult (p : JsPromise) : Option JsPromise :=
  let _ := p
  none

/-- `await v`: awaiting `undefined` resolves immediately with no error;
awaiting a promise surfaces its outcome. -/
def jsAwait (v : Option JsPromise) : Except String Unit :=
  match v with
  | none => Except.ok ()
  | some p => p

/-- What one loop iteration observably does for an item that needs
creation. -/
structure ItemStep where
  /-- console lines the migrator prints for this item -/
  log : List String
  /-- whether the catch handler ran and logged the creation error -/
  creationErrorLogged : Bool
  /-- whether the create call's promise is the value awaited before the
  loop moves on to the next item -/
  createCallAwaited : Bool
deriving DecidableEq, Repr

/-- One iteration of the milestone loop of `transferMilestones` for a
milestone with no title match among the GitHub milestones, given the
eventual outcome of `createMilestone`. -/
def transferMilestones_createStep (title : String) (createOutcome : JsPromise) : ItemStep :=
  let awaited := milestoneClosureResult createOutcome
  match jsAwait awaited with
  | Except.ok _ =>
    { log := ["Creating: " ++ title]
      creationErrorLogged := false
      createCallAwaited := awaited.isSome }
  | Except.error e =>
    { log := ["Creating: " ++ title, "Could not create milestone " ++ title, e]
      creationErrorLogged := true
      createCallAwaited := awaited.isSome }

/-- One iteration of the label loop of `transferLabels` for a label name
not present on GitHub, given the eventual outcome of `createLabel`. -/
def transferLabels_createStep (name : String) (createOutcome : JsPromise) : ItemStep :=
  let awaited := labelClosureResult createOutcome
  match jsAwait awaited with
  | Except.ok _ =>
    { log := ["Creating: " ++ name]
      creationErrorLogged := false
      createCallAwaited := awaited.isSome }
  | Except.error e =>
    { log := ["Creating: " ++ name, "Could not create label " ++ name, e]
      creationErrorLogged := true
      createCallAwaited := awaited.isSome }

/-! ## Concrete fixtures used by the theorems -/

/-- A plain fetched GitLab issue with the given iid, global id and title. -/
def glIssue (iid gid : Nat) (title : String) : Issue :=
  { iid := some iid
    id := some gid
    title := title
    description := ""
    state := "opened"
    assignee := none
    milestoneTitle := none
    labels := some []
    author := none
    created_at := none }

/-- A merge request fixture with the given iid (also used as id) and state. -/
def mrFixture (i : Nat) (state : String) : MergeRequest :=
  { id := i
    iid := i
    title := "MR title"
    description := "MR body"
    state := state
    source_branch := "feat"
    target_branch := "master"
    sha := "headsha"
    merge_commit_sha := "mergesha" }

/-- A settings fixture with empty maps. -/
def settingsPlain : Settings :=
  { github_owner := "own"
    github_repo := "rep"
    github_username := "carol"
    usermap := none
    projectmap := none }

/-- A settings fixture mapping the GitLab user alice to the GitHub user bob. -/
def settingsAlice : Settings :=
  { settingsPlain with usermap := some [("alice", "bob")] }

/-- An issue fixture with the given assignee. -/
def issueAssigned (a : Option AssigneeRef) : Issue :=
  { glIssue 1 10 "T" with assignee := a }

/-- The GitLab merge-requests environment for project 42 only. -/
def fetchProject42 : Nat → List MergeRequest :=
  fun n => if n = 42 then [mrFixture 1 "merged"] else []

/-- The placeholder issue with an upload reference in its body. -/
def placeholderWithUpload : Issue :=
  { placeholderItem with description := "see /uploads/a.png" }

/-! ## The claims -/

/-- C1: the gap-filling pass of `transferIssues` is claimed to leave, at
every index `i`, either a placeholder or the real issue with iid `i + 1`,
for gaps of any width.  The documented example `[1,2,4,5]` does come out as
`[1,2,placeholder,4,5]`, but evaluating the pass at the two-wide gap
`[1,4]` inserts only one placeholder: after the splice the loop skips the
shifted element, the result is `[1, placeholder, 4]`, and its element at
index 2 is the real issue with iid 4, not 3 and not a placeholder.  The
code contradicts its own comment that GitHub issues will get the same
numbers as in GitLab. -/
theorem C1_gapFill_wide_gap_misaligned :
    transferIssues_gapFill [glIssue 1 1 "a", glIssue 2 2 "b", glIssue 4 4 "d", glIssue 5 5 "e"] =
      [glIssue 1 1 "a", glIssue 2 2 "b", placeholderItem, glIssue 4 4 "d", glIssue 5 5 "e"]
    ∧ transferIssues_gapFill [glIssue 1 1 "a", glIssue 4 4 "d"] =
      [glIssue 1 1 "a", placeholderItem, glIssue 4 4 "d"]
    ∧ (transferIssues_gapFill [glIssue 1 1 "a", glIssue 4 4 "d"])[2]? = some (glIssue 4 4 "d")
    ∧ (glIssue 4 4 "d").iid ≠ some 3
    ∧ glIssue 4 4 "d" ≠ placeholderItem := by
  refine ⟨rfl, rfl, rfl, by decide, by decide⟩

/-- C2: `createPRAndComments` is claimed to skip a merge request exactly
when its state is neither merged nor open.  Evaluating the function shows
that a merged merge request with iid 2 is skipped entirely (no branch, no
pull request) because of the leftover `// TEMP if (mr.iid != 1) return;`
guard, while the same merge request with iid 1 gets its head branch at the
head sha, its base branch at the single other merge-commit parent, and the
pull request, as the claim describes. -/
theorem C2_createPR_temp_guard_skips_eligible :
    createPRAndComments (mrFixture 2 "merged") ["parentsha", "headsha"] = []
    ∧ (mrFixture 2 "merged").state = "merged"
    ∧ createPRAndComments (mrFixture 1 "merged") ["parentsha", "headsha"] =
        [GhAction.createBranch "MR1-feat-head" (some "headsha"),
         GhAction.createBranch "MR1-master-base" (some "parentsha"),
         GhAction.createPullRequest "MR title" "MR body" "MR1-feat-head" "MR1-master-base"] := by
  refine ⟨rfl, rfl, rfl⟩

/-- C3: `transferMergeRequests` is claimed to fetch the merge requests of
the project id it is given.  Evaluating the fetch-and-sort prefix in an
environment where project 42 has one merge request and every other project
has none shows that the call with projectId 42 returns nothing: the source
passes the literal 188 to the listing call.  The ascending sort by id is
confirmed on the project-188 side. -/
theorem C3_transferMergeRequests_hardcoded_project :
    transferMergeRequests_fetchSorted fetchProject42 42 = []
    ∧ fetchProject42 42 = [mrFixture 1 "merged"]
    ∧ transferMergeRequests_fetchSorted (fun _ => [mrFixture 2 "open", mrFixture 1 "merged"]) 42 =
        [mrFixture 1 "merged", mrFixture 2 "open"] := by
  refine ⟨rfl, rfl, rfl⟩

/-- C4: `convertIssuesAndComments` is claimed to return the body with
mapped mentions rewritten.  With the usermap sending alice to bob and a
body consisting of the mention of alice (an item without author metadata,
so no attribution line is prepended), the function returns the original
mention unchanged — the replace result is computed but discarded — while
the rewrite it discards is exactly the mapped mention. -/
theorem C4_convert_returns_unmapped_text :
    convertIssuesAndComments settingsAlice (fun d => d) "@alice" none none = "@alice"
    ∧ jsReplaceGlobal (userProjectAlts settingsAlice) "@alice" = "@bob"
    ∧ ("@alice" : String) ≠ "@bob" := by
  refine ⟨rfl, rfl, by decide⟩

/-- C5: `createIssue` is claimed to proceed to create the issue in all
three assignee cases.  It does when the assignee is the migration user
(single assignee, that username) and when the assignee is unmapped (empty
assignee list), but in the UserMap case it throws: the source reads
`settings.usermap[item.assignee.username]` and `item` is not bound
anywhere in the function (its parameter is `issue`). -/
theorem C5_createIssue_usermap_branch_throws :
    createIssue settingsAlice (fun d => d) [] (issueAssigned (some ⟨"alice"⟩)) =
      Except.error "ReferenceError: item is not defined"
    ∧ createIssue settingsAlice (fun d => d) [] (issueAssigned (some ⟨"carol"⟩)) =
        Except.ok
          { owner := "own", repo := "rep", title := "T", body := ""
            assignees := some ["carol"], milestone := none, labels := some [] }
    ∧ createIssue settingsAlice (fun d => d) [] (issueAssigned (some ⟨"dave"⟩)) =
        Except.ok
          { owner := "own", repo := "rep", title := "T", body := ""
            assignees := some [], milestone := none, labels := some [] } := by
  refine ⟨rfl, rfl, rfl⟩

/-- C6 (counterexample): the claim says every entity type matches on
post-trim title equality.  A source milestone titled with a trailing space
and a destination milestone with the same title trimmed are post-trim
equal, yet `transferMilestones` does not treat the milestone as migrated;
the same holds for merge requests.  Only the issue matcher trims. -/
theorem C6_counterexample_untrimmed_matchers :
    milestoneAlreadyMigrated [⟨1, "Sprint 1"⟩] ⟨5, "Sprint 1 ", "", "active", none⟩ = false
    ∧ jsTrim "Sprint 1 " = jsTrim "Sprint 1"
    ∧ prAlreadyMigrated [⟨1, "MR title"⟩] { mrFixture 1 "merged" with title := "MR title " } = none
    ∧ jsTrim "MR title " = jsTrim "MR title"
    ∧ issueAlreadyMigrated [⟨1, "T", "open"⟩] { glIssue 1 1 "T " with title := "T " } =
        some ⟨1, "T", "open"⟩ := by
  refine ⟨rfl, by decide, rfl, by decide, rfl⟩

/-- C6 (amended): a source item is treated as already migrated exactly when
some destination item has an equal title, where the comparison trims
leading and trailing whitespace for issues but is exact untrimmed string
equality for milestones and merge requests; in each case the match is a
plain title scan, with no fuzzy or id-based matching. -/
theorem C6_amended_title_match :
    ∀ (ghMs : List GhMilestone) (m : Milestone) (ghIssues : List GhIssueRef) (issue : Issue)
      (ghPRs : List GhPullReq) (mr : MergeRequest),
      (milestoneAlreadyMigrated ghMs m = true ↔ ∃ g ∈ ghMs, g.title = m.title)
      ∧ ((issueAlreadyMigrated ghIssues issue).isSome = true ↔
          ∃ g ∈ ghIssues, jsTrim g.title = jsTrim issue.title)
      ∧ ((prAlreadyMigrated ghPRs mr).isSome = true ↔ ∃ g ∈ ghPRs, g.title = mr.title) := by
  intro ghMs m ghIssues issue ghPRs mr
  refine ⟨?_, ?_, ?_⟩
  · simp [milestoneAlreadyMigrated, List.find?_isSome]
  · simp [issueAlreadyMigrated, List.find?_isSome]
  · simp [prAlreadyMigrated, List.find?_isSome]

/-- C7: the claim says a rejected milestone or label creation is awaited to
completion and logged with the item title before the loop continues.
Evaluating one loop iteration with a rejecting create call shows
otherwise: the awaited arrow function returns undefined rather than the
promise, so nothing is awaited, the catch handler never runs, and the log
holds only the Creating line — the rejection is an unhandled promise
rejection (milestones) or silently swallowed by an empty catch handler
(labels). -/
theorem C7_create_failure_not_awaited_not_logged :
    transferMilestones_createStep "v1.0" (Except.error "boom") =
      { log := ["Creating: v1.0"], creationErrorLogged := false, createCallAwaited := false }
    ∧ transferLabels_createStep "bug" (Except.error "boom") =
      { log := ["Creating: bug"], creationErrorLogged := false, createCallAwaited := false } := by
  refine ⟨rfl, rfl⟩

/-- C8: `createIssueComments` transfers exactly the notes whose body the
fixed state-change narration filter does not match, in ascending id order;
the body consisting only of the closed-status narration is dropped, while
the closed-by-commit variant passes the negative-lookahead test and is
transferred. -/
theorem C8_note_filter :
    ∀ (notes : List Note) (n : Note),
      (n ∈ createIssueComments_transferred notes ↔
        n ∈ notes ∧ noteIsStateChange n.body = false)
      ∧ noteIsStateChange "Status changed to closed" = true
      ∧ noteIsStateChange "Status changed to closed by commit abc123" = false := by
  intro notes n
  refine ⟨?_, rfl, rfl⟩
  simp [createIssueComments_transferred, List.mem_filter, mem_sortByKey]

/-- C9: `updateIssueState` edits exactly when the source issue is closed
and the matched destination issue is not, and any edit it makes sets the
destination state to closed; in particular a closed destination issue is
never edited (so never reopened), and an open destination issue matched to
an open source issue is left unchanged. -/
theorem C9_updateIssueState_one_directional :
    ∀ (s : Settings) (gh : GhIssueRef) (i : Issue),
      ((updateIssueState s gh i).isSome = true ↔ (i.state = "closed" ∧ gh.state ≠ "closed"))
      ∧ (∀ p, updateIssueState s gh i = some p → p.state = "closed") := by
  intro s gh i
  unfold updateIssueState
  by_cases h : i.state ≠ "closed" ∨ gh.state = "closed"
  · rw [if_pos h]
    constructor
    · constructor
      · intro hs
        simp at hs
      · intro hc
        rcases h with h1 | h2
        · exact absurd hc.1 h1
        · exact absurd h2 hc.2
    · intro p hp
      exact Option.noConfusion hp
  · rw [if_neg h]
    push_neg at h
    constructor
    · simp only [Option.isSome_some, true_iff]
      exact h
    · intro p hp
      have hx := Option.some.inj hp
      rw [← hx]
      exact h.1

/-- Witness for C9 at a concrete input: an open destination issue matched
to a closed source issue is edited, and the edit closes it. -/
theorem C9_updateIssueState_witness :
    ∃ p, updateIssueState settingsPlain ⟨7, "T", "open"⟩ { glIssue 1 1 "T" with state := "closed" } = some p
      ∧ p.state = "closed" :=
  ⟨⟨"own", "rep", 7, "closed"⟩, rfl,
   (C9_updateIssueState_one_directional settingsPlain ⟨7, "T", "open"⟩
     { glIssue 1 1 "T" with state := "closed" }).2 ⟨"own", "rep", 7, "closed"⟩ rfl⟩

/-- C10: whenever the assignee step succeeds and the converted body
contains the upload marker, `createIssue` throws the labels TypeError
exactly when the issue has no labels field — as the synthetic placeholder
issue does — and with a labels list it instead appends the attachment
label and creates the issue: the attachment-flagging step is total only on
issues that carry a labels list. -/
theorem C10_createIssue_attachment_typeError :
    ∀ (s : Settings) (ld : String → String) (ms : List GhMilestone) (issue : Issue)
      (aopt : Option (List String)),
      createIssue_assignees s issue = Except.ok aopt →
      strContains (convertIssuesAndComments s ld issue.description issue.author issue.created_at)
          "/uploads/" = true →
      (issue.labels = none →
        createIssue s ld ms issue = Except.error "TypeError: cannot read property push of undefined")
      ∧ (∀ ls, issue.labels = some ls →
          ∃ p, createIssue s ld ms issue = Except.ok p
            ∧ p.labels = some (ls ++ ["has attachment"])) := by
  intro s ld ms issue aopt hass hbody
  have hne : convertIssuesAndComments s ld issue.description issue.author issue.created_at ≠ "" := by
    intro h0
    rw [h0] at hbody
    exact absurd hbody (by decide)
  have htruthy :
      jsTruthyStr (some (convertIssuesAndComments s ld issue.description issue.author issue.created_at)) = true := by
    simp [jsTruthyStr, hne]
  constructor
  · intro hn
    simp [createIssue, hass, htruthy, hbody, hn]
  · intro ls hl
    simp [createIssue, hass, htruthy, hbody, hl]

/-- Witness for C10 at a concrete input: the placeholder issue with an
upload path in its description makes `createIssue` throw the TypeError. -/
theorem C10_createIssue_attachment_witness :
    createIssue settingsPlain (fun d => d) [] placeholderWithUpload =
      Except.error "TypeError: cannot read property push of undefined" :=
  (C10_createIssue_attachment_typeError settingsPlain (fun d => d) [] placeholderWithUpload
    none rfl rfl).1 rfl

end G2G
